import Mathlib

/-!
# Verification of `src/visual.py` (sme_gemm repository)

A shallow embedding of the SME matrix-multiplication performance
visualization script.  The script holds hardcoded benchmark tables
(`load_data`), draws three charts (speedup, throughput, execution time)
with selective annotations, and saves the figure to four files (`main`).

Python dicts are embedded as association lists of `String × List ℚ`
(preserving insertion order); decimal literals become exact rationals
(453.0 ↦ 4530/10, 11.50 ↦ 1150/100, …).  Text annotations placed by
`ax.text` are embedded as structures recording position, the raw value,
and the displayed (decimal-rounded) number; the decimal formatting
`f-string val:.1f` is modelled as rounding to one decimal place.
-/

namespace Visual

/-- The ordered matrix-size labels from `load_data` (`matrix_sizes`). -/
def matrix_sizes : List String := ["64×64×64", "128×128×128", "256×256×256"]

/-- `time_data` from `load_data`: execution time in microseconds per method
(453.0, 2985.9, 11554.4, … as exact fractions). -/
def time_data : List (String × List ℚ) :=
  [("cpu", [4530/10, 29859/10, 115544/10]),
   ("sme_cpu_prep", [394/10, 596/10, 1402/10]),
   ("sme_sme_prep", [51/10, 188/10, 661/10]),
   ("sme_4tiles", [53/10, 84/10, 230/10])]

/-- `speedup_data` from `load_data`: speedup factor relative to `cpu`
(1.00, 11.50, 50.10, 82.41, … as exact fractions). -/
def speedup_data : List (String × List ℚ) :=
  [("cpu", [100/100, 100/100, 100/100]),
   ("sme_cpu_prep", [1150/100, 5010/100, 8241/100]),
   ("sme_sme_prep", [8882/100, 15882/100, 17480/100]),
   ("sme_4tiles", [8547/100, 35546/100, 50237/100])]

/-- `gflops_data` from `load_data`: throughput in GFLOPS per method
(1.16, 1.40, 2.90, … as exact fractions). -/
def gflops_data : List (String × List ℚ) :=
  [("cpu", [116/100, 140/100, 290/100]),
   ("sme_cpu_prep", [1331/100, 7037/100, 23933/100]),
   ("sme_sme_prep", [10280/100, 22310/100, 50763/100]),
   ("sme_4tiles", [9892/100, 49932/100, 145889/100])]

/-- Dictionary lookup (`d[k]` on a Python dict), total with default `[]`. -/
def dictGet (d : List (String × List ℚ)) (k : String) : List ℚ :=
  ((d.find? (fun p => p.1 == k)).map Prod.snd).getD []

/-- Index type enumerating the four benchmark methods (the dict keys of
`time_data`, `speedup_data` and `gflops_data`, in insertion order). -/
inductive Method : Type
  | cpu | sme_cpu_prep | sme_sme_prep | sme_4tiles
deriving DecidableEq

/-- The Python dict key corresponding to a method. -/
def Method.key : Method → String
  | .cpu => "cpu"
  | .sme_cpu_prep => "sme_cpu_prep"
  | .sme_sme_prep => "sme_sme_prep"
  | .sme_4tiles => "sme_4tiles"

/-- Index type for the three non-baseline methods (the series plotted in the
speedup chart, and the methods the speedup claim quantifies over). -/
inductive Variant : Type
  | sme_cpu_prep | sme_sme_prep | sme_4tiles
deriving DecidableEq

/-- The benchmark method a variant denotes. -/
def Variant.toMethod : Variant → Method
  | .sme_cpu_prep => .sme_cpu_prep
  | .sme_sme_prep => .sme_sme_prep
  | .sme_4tiles => .sme_4tiles

/-- Execution time (`time_data[m][i]`) of method `m` at size index `i`. -/
def timeAt (m : Method) (i : Fin 3) : ℚ := (dictGet time_data m.key).getD i 0

/-- Speedup (`speedup_data[m][i]`) of method `m` at size index `i`. -/
def speedupAt (m : Method) (i : Fin 3) : ℚ := (dictGet speedup_data m.key).getD i 0

/-- Throughput (`gflops_data[m][i]`) of method `m` at size index `i`. -/
def gflopsAt (m : Method) (i : Fin 3) : ℚ := (dictGet gflops_data m.key).getD i 0

/-- Round a rational to 2 decimal places (nearest; Lean's `round` is
half-up, and no table value sits on a half-way point). -/
def round2 (q : ℚ) : ℚ := (round (100 * q) : ℤ) / 100

/-- Round a rational to 1 decimal place: the number displayed by the Python
format `:.1f` on these (positive, non-tie) values. -/
def round1 (q : ℚ) : ℚ := (round (10 * q) : ℤ) / 10

/-- Round a rational to the nearest integer: the number displayed by the
Python format `:.0f` on these (positive, non-tie) values. -/
def round0 (q : ℚ) : ℚ := (round q : ℤ)

/-- The matrix dimension n of the n×n×n multiply at size index `i`
(64, 128, 256, matching the labels in `matrix_sizes`). -/
def matDim (i : Fin 3) : ℚ := ([64, 128, 256] : List ℚ).getD i 0

/-! ### Bridge lemmas: dictionary lookups evaluated per method

`dictGet` runs `List.find?` over string keys; these lemmas (proved by
`rfl`) expose the looked-up value lists so later proofs can case on the
method and compute. -/

/-- The value list each method maps to in `time_data`. -/
def timeVals : Method → List ℚ
  | .cpu => [4530/10, 29859/10, 115544/10]
  | .sme_cpu_prep => [394/10, 596/10, 1402/10]
  | .sme_sme_prep => [51/10, 188/10, 661/10]
  | .sme_4tiles => [53/10, 84/10, 230/10]

/-- The value list each method maps to in `speedup_data`. -/
def speedupVals : Method → List ℚ
  | .cpu => [100/100, 100/100, 100/100]
  | .sme_cpu_prep => [1150/100, 5010/100, 8241/100]
  | .sme_sme_prep => [8882/100, 15882/100, 17480/100]
  | .sme_4tiles => [8547/100, 35546/100, 50237/100]

/-- The value list each method maps to in `gflops_data`. -/
def gflopsVals : Method → List ℚ
  | .cpu => [116/100, 140/100, 290/100]
  | .sme_cpu_prep => [1331/100, 7037/100, 23933/100]
  | .sme_sme_prep => [10280/100, 22310/100, 50763/100]
  | .sme_4tiles => [9892/100, 49932/100, 145889/100]

theorem timeAt_eq (m : Method) (i : Fin 3) : timeAt m i = (timeVals m).getD i 0 := by
  cases m <;> rfl

theorem speedupAt_eq (m : Method) (i : Fin 3) : speedupAt m i = (speedupVals m).getD i 0 := by
  cases m <;> rfl

theorem gflopsAt_eq (m : Method) (i : Fin 3) : gflopsAt m i = (gflopsVals m).getD i 0 := by
  cases m <;> rfl

theorem dictGet_time (m : Method) : dictGet time_data m.key = timeVals m := by
  cases m <;> rfl

theorem dictGet_speedup (m : Method) : dictGet speedup_data m.key = speedupVals m := by
  cases m <;> rfl

theorem dictGet_gflops (m : Method) : dictGet gflops_data m.key = gflopsVals m := by
  cases m <;> rfl

/-! ### Chart embeddings

Each chart routine receives an axes object and mutates it.  The claims
concern the annotations placed by `ax.text`, the fixed y-axis limits, and
which series is annotated, so the embedding records exactly those calls. -/

/-- An `ax.text` call of `create_speedup_plot`: position, the raw series
value, the displayed number (the `:.1f`-formatted value) and whether the
label carries a border (`bbox` with an edge color). -/
structure SpeedupAnn where
  x : ℚ
  y : ℚ
  value : ℚ
  shown : ℚ
  bordered : Bool
deriving DecidableEq

/-- The annotation loop of `create_speedup_plot`: every point of the
`sme_4tiles` series is annotated, with vertical offset
`val * 1.10` (or `val * 1.15` at index 1), text `f-string val:.1f ×`,
in a white rounded box with a border. -/
def speedupAnnotations : List SpeedupAnn :=
  (List.range (dictGet speedup_data "sme_4tiles").length).map fun i =>
    let val := (dictGet speedup_data "sme_4tiles").getD i 0
    { x := i
      y := if i ≠ 1 then val * (110/100) else val * (115/100)
      value := val
      shown := round1 val
      bordered := true }

/-- The fixed y-axis range `[0.5, 600]` of the speedup chart. -/
def speedup_ylim : ℚ × ℚ := (5/10, 600)

/-- An `ax.text` call of `create_throughput_plot`: the method whose bar is
annotated, the bar index, position, raw value, and displayed (`:.0f`) number. -/
structure BarAnn where
  method : String
  barIndex : ℕ
  x : ℚ
  y : ℚ
  value : ℚ
  shown : ℚ
deriving DecidableEq

/-- Bar width used by `create_throughput_plot` (`bar_width = 0.2`). -/
def bar_width : ℚ := 2/10

/-- The method list of `create_throughput_plot` with each series' bar
offset (in bar widths) from the category center. -/
def throughput_methods : List (String × ℚ) :=
  [("cpu", -(3/2)), ("sme_cpu_prep", -(1/2)), ("sme_sme_prep", 1/2), ("sme_4tiles", 3/2)]

/-- The annotation loop of `create_throughput_plot`: only for the
`sme_4tiles` series, and only for bars at odd index (`i % 2 == 1`), a label
with the `:.0f`-formatted value is placed at the bar center, at height
`val * 1.05`. -/
def throughputAnnotations : List BarAnn :=
  throughput_methods.flatMap fun p =>
    if p.1 == "sme_4tiles" then
      (List.range (dictGet gflops_data p.1).length).filterMap fun i =>
        if i % 2 == 1 then
          let val := (dictGet gflops_data p.1).getD i 0
          some { method := p.1, barIndex := i, x := i + p.2 * bar_width,
                 y := val * (105/100), value := val, shown := round0 val }
        else none
    else []

/-- The fixed y-axis range `[0, 1700]` of the throughput chart. -/
def gflops_ylim : ℚ × ℚ := (0, 1700)

/-- An `ax.text` call of `create_execution_time_plot`: position, vertical
anchor (`va`, `"top"` or `"bottom"`), raw value, and displayed (`:.1f`,
suffixed `μs`) number. -/
structure TimeAnn where
  x : ℚ
  y : ℚ
  va : String
  value : ℚ
  shown : ℚ
deriving DecidableEq

/-- Python sequence indexing with a possibly negative index (`xs[i]`,
where `xs[-1]` is the last element), total with default `0`. -/
def pyGet (xs : List ℚ) (i : ℤ) : ℚ :=
  if 0 ≤ i then xs.getD i.toNat 0 else xs.getD (xs.length - (-i).toNat) 0

/-- The annotation loop of `create_execution_time_plot`: for `i in [0, -1]`
over `best_vals = time_data["sme_4tiles"]`, offset `val * 0.6` with anchor
`"top"` at `i = 0` and `val * 1.5` with anchor `"bottom"` at `i = -1`. -/
def execTimeAnnotations : List TimeAnn :=
  ([0, -1] : List ℤ).map fun i =>
    let best_vals := dictGet time_data "sme_4tiles"
    let val := pyGet best_vals i
    { x := pyGet [0, 1, 2] i
      y := if i = 0 then val * (6/10) else val * (15/10)
      va := if i = 0 then "top" else "bottom"
      value := val
      shown := round1 val }

/-- The fixed y-axis range `[3, 20000]` of the (log-scale) execution-time
chart. -/
def time_ylim : ℚ × ℚ := (3, 20000)

/-! ### Export embedding (`main`) -/

/-- One `plt.savefig` call: target filename and the `dpi` argument
(`none` embeds Python's `dpi=None`, used for the vector formats). -/
structure SaveCall where
  filename : String
  dpi : Option ℕ
deriving DecidableEq

/-- The `output_formats` dict of `main`, in insertion order: extension and
dpi setting. -/
def output_formats : List (String × Option ℕ) :=
  [("png", some 300), ("pdf", none), ("svg", none)]

/-- The sequence of `plt.savefig` calls `main` performs: one per entry of
`output_formats` under the fixed stem, then the 600-DPI hires PNG. -/
def mainSaveCalls : List SaveCall :=
  (output_formats.map fun p => { filename := "sme_matmul_performance." ++ p.1, dpi := p.2 })
    ++ [{ filename := "sme_matmul_performance_hires.png", dpi := some 600 }]

/-- A file system mapping filename to the dpi of the last write (`none` if
the file does not exist). -/
def FS : Type := String → Option (Option ℕ)

/-- Writing a file: later writes overwrite earlier content under the same
name. -/
def writeFile (fs : FS) (c : SaveCall) : FS :=
  fun n => if n = c.filename then some c.dpi else fs n

/-- The file system after `main`'s save calls, starting from `fs`. -/
def runMainSaves (fs : FS) : FS := mainSaveCalls.foldl writeFile fs

/-! ### Evaluation helpers

The embedding functions above reduce definitionally to explicit lists
(string matching and list traversal compute; only the rational arithmetic
in the fields stays symbolic).  These shared lemmas expose those lists. -/

theorem speedupAnnotations_eval : speedupAnnotations =
    [{ x := 0, y := 8547/100 * (110/100), value := 8547/100, shown := round1 (8547/100),
       bordered := true },
     { x := 1, y := 35546/100 * (115/100), value := 35546/100, shown := round1 (35546/100),
       bordered := true },
     { x := 2, y := 50237/100 * (110/100), value := 50237/100, shown := round1 (50237/100),
       bordered := true }] := rfl

theorem execTimeAnnotations_eval : execTimeAnnotations =
    [{ x := 0, y := 53/10 * (6/10), va := "top", value := 53/10, shown := round1 (53/10) },
     { x := 2, y := 230/10 * (15/10), va := "bottom", value := 230/10,
       shown := round1 (230/10) }] := rfl

theorem throughputAnnotations_eval : throughputAnnotations =
    [{ method := "sme_4tiles", barIndex := 1, x := 1 + 3/2 * bar_width,
       y := 49932/100 * (105/100), value := 49932/100, shown := round0 (49932/100) }] := rfl

theorem mainSaveCalls_eval : mainSaveCalls =
    [{ filename := "sme_matmul_performance.png", dpi := some 300 },
     { filename := "sme_matmul_performance.pdf", dpi := none },
     { filename := "sme_matmul_performance.svg", dpi := none },
     { filename := "sme_matmul_performance_hires.png", dpi := some 600 }] := rfl

/-- A placeholder speedup annotation, default for list indexing. -/
def noSpeedupAnn : SpeedupAnn := { x := 0, y := 0, value := 0, shown := 0, bordered := false }

/-- A placeholder time annotation, default for list indexing. -/
def noTimeAnn : TimeAnn := { x := 0, y := 0, va := "", value := 0, shown := 0 }

/-- A placeholder bar annotation, default for list indexing. -/
def noBarAnn : BarAnn := { method := "", barIndex := 0, x := 0, y := 0, value := 0, shown := 0 }

/-! ### Claim theorems -/

/-- C1 counterexample: at matrix size 64×64×64 (index 0) the `sme_4tiles`
execution time (5.3 μs) exceeds the `sme_sme_prep` execution time (5.1 μs),
so `sme_4tiles` is not ≤ every other method at every size. -/
theorem sme_4tiles_not_fastest_at_size64 :
    timeAt .sme_sme_prep 0 = 51/10 ∧ timeAt .sme_4tiles 0 = 53/10 ∧
    timeAt .sme_sme_prep 0 < timeAt .sme_4tiles 0 := by
  refine ⟨rfl, rfl, ?_⟩
  rw [show timeAt .sme_sme_prep 0 = 51/10 from rfl, show timeAt .sme_4tiles 0 = 53/10 from rfl]
  norm_num

/-- C1 (amended): the `sme_4tiles` execution time is ≤ every other method's
at matrix sizes 128×128×128 and 256×256×256, and at 64×64×64 it is ≤ the
`cpu` and `sme_cpu_prep` times but strictly greater than `sme_sme_prep`'s. -/
theorem sme_4tiles_fastest_except_size64 :
    (∀ m : Method, timeAt .sme_4tiles 1 ≤ timeAt m 1) ∧
    (∀ m : Method, timeAt .sme_4tiles 2 ≤ timeAt m 2) ∧
    timeAt .sme_4tiles 0 ≤ timeAt .cpu 0 ∧
    timeAt .sme_4tiles 0 ≤ timeAt .sme_cpu_prep 0 ∧
    timeAt .sme_sme_prep 0 < timeAt .sme_4tiles 0 := by
  refine ⟨fun m => ?_, fun m => ?_, ?_, ?_, ?_⟩ <;>
    first
      | (cases m <;> simp only [timeAt_eq, timeVals] <;> norm_num)
      | (simp only [timeAt_eq, timeVals]; norm_num)

/-- C2: for every non-baseline method and size, the speedup table equals
the `cpu` execution time divided by that method's execution time, rounded
to two decimal places. -/
theorem speedup_eq_rounded_time_ratio :
    ∀ (v : Variant) (i : Fin 3),
      speedupAt v.toMethod i = round2 (timeAt .cpu i / timeAt v.toMethod i) := by
  intro v i
  cases v <;> fin_cases i <;>
    simp only [Variant.toMethod, timeAt_eq, speedupAt_eq, timeVals, speedupVals,
      round2, round_eq] <;>
    norm_num

/-- C3 counterexample: the speedup chart annotates the `sme_4tiles` series,
but at matrix size 64×64×64 (index 0) the annotated value 85.47 is not the
maximum: `sme_sme_prep` reaches 88.82 there. -/
theorem speedup_annotation_not_max_at_size64 :
    (speedupAnnotations.getD 0 noSpeedupAnn).value = speedupAt .sme_4tiles 0 ∧
    speedupAt .sme_4tiles 0 < speedupAt .sme_sme_prep 0 := by
  refine ⟨rfl, ?_⟩
  rw [show speedupAt .sme_4tiles 0 = 8547/100 from rfl,
    show speedupAt .sme_sme_prep 0 = 8882/100 from rfl]
  norm_num

/-- C3 (amended): the speedup chart annotates each of the three points of
the `sme_4tiles` series with its value rounded to one decimal place in a
bordered label; at sizes 128×128×128 and 256×256×256 that value is the
maximum over all methods, but at 64×64×64 it is exceeded by
`sme_sme_prep`'s speedup. -/
theorem speedup_annotations_best_series :
    speedupAnnotations.length = 3 ∧
    (∀ i : Fin 3,
      (speedupAnnotations.getD i noSpeedupAnn).x = ((i : ℕ) : ℚ) ∧
      (speedupAnnotations.getD i noSpeedupAnn).value = speedupAt .sme_4tiles i ∧
      (speedupAnnotations.getD i noSpeedupAnn).shown = round1 (speedupAt .sme_4tiles i) ∧
      (speedupAnnotations.getD i noSpeedupAnn).bordered = true) ∧
    (∀ m : Method, speedupAt m 1 ≤ speedupAt .sme_4tiles 1) ∧
    (∀ m : Method, speedupAt m 2 ≤ speedupAt .sme_4tiles 2) ∧
    speedupAt .sme_4tiles 0 < speedupAt .sme_sme_prep 0 := by
  refine ⟨rfl, fun i => ?_, fun m => ?_, fun m => ?_, ?_⟩
  · fin_cases i <;> exact ⟨rfl, rfl, rfl, rfl⟩
  · cases m <;> simp only [speedupAt_eq, speedupVals] <;> norm_num
  · cases m <;> simp only [speedupAt_eq, speedupVals] <;> norm_num
  · rw [show speedupAt .sme_4tiles 0 = 8547/100 from rfl,
      show speedupAt .sme_sme_prep 0 = 8882/100 from rfl]
    norm_num

/-- C4: for every method and size, the throughput table equals the GFLOPS
implied by the time table for a 2·n³-operation multiply — (2·n³ divided by
the time in microseconds) divided by 1000 — rounded to two decimals. -/
theorem gflops_eq_rounded_throughput :
    ∀ (m : Method) (i : Fin 3),
      gflopsAt m i = round2 (2 * matDim i ^ 3 / timeAt m i / 1000) := by
  intro m i
  cases m <;> fin_cases i <;>
    simp only [gflopsAt_eq, timeAt_eq, gflopsVals, timeVals, matDim, round2, round_eq] <;>
    norm_num

/-- C5: the execution-time chart annotates exactly two points, the first
and the last of the `sme_4tiles` series, each with the value rounded to one
decimal place (in μs); the first label sits below its point (anchor `top`)
and the second above it (anchor `bottom`). -/
theorem exec_time_annotations_first_last :
    execTimeAnnotations.length = 2 ∧
    (execTimeAnnotations.getD 0 noTimeAnn).x = 0 ∧
    (execTimeAnnotations.getD 0 noTimeAnn).value = timeAt .sme_4tiles 0 ∧
    (execTimeAnnotations.getD 0 noTimeAnn).shown = round1 (timeAt .sme_4tiles 0) ∧
    (execTimeAnnotations.getD 0 noTimeAnn).va = "top" ∧
    (execTimeAnnotations.getD 0 noTimeAnn).y < timeAt .sme_4tiles 0 ∧
    (execTimeAnnotations.getD 1 noTimeAnn).x = 2 ∧
    (execTimeAnnotations.getD 1 noTimeAnn).value = timeAt .sme_4tiles 2 ∧
    (execTimeAnnotations.getD 1 noTimeAnn).shown = round1 (timeAt .sme_4tiles 2) ∧
    (execTimeAnnotations.getD 1 noTimeAnn).va = "bottom" ∧
    timeAt .sme_4tiles 2 < (execTimeAnnotations.getD 1 noTimeAnn).y := by
  refine ⟨rfl, rfl, rfl, rfl, rfl, ?_, rfl, rfl, rfl, rfl, ?_⟩
  · rw [show (execTimeAnnotations.getD 0 noTimeAnn).y = 53/10 * (6/10) from rfl,
      show timeAt .sme_4tiles 0 = 53/10 from rfl]
    norm_num
  · rw [show (execTimeAnnotations.getD 1 noTimeAnn).y = 230/10 * (15/10) from rfl,
      show timeAt .sme_4tiles 2 = 230/10 from rfl]
    norm_num

/-- C6: the throughput chart annotates exactly the odd-indexed bars of the
`sme_4tiles` series — of the three bars that is the single bar at index 1 —
with the value rounded to a whole number (499); no bar of any other method
is annotated. -/
theorem throughput_annotations_every_other_bar :
    throughputAnnotations.length = 1 ∧
    (throughputAnnotations.getD 0 noBarAnn).method = "sme_4tiles" ∧
    (throughputAnnotations.getD 0 noBarAnn).barIndex = 1 ∧
    (throughputAnnotations.getD 0 noBarAnn).barIndex % 2 = 1 ∧
    (throughputAnnotations.getD 0 noBarAnn).value = gflopsAt .sme_4tiles 1 ∧
    (throughputAnnotations.getD 0 noBarAnn).shown = round0 (gflopsAt .sme_4tiles 1) ∧
    round0 (gflopsAt .sme_4tiles 1) = 499 := by
  refine ⟨rfl, rfl, rfl, rfl, rfl, rfl, ?_⟩
  rw [show gflopsAt .sme_4tiles 1 = 49932/100 from rfl, round0, round_eq]
  norm_num

/-- C7: `main` performs exactly four save calls, in order: the 300-DPI PNG,
the vector PDF, the vector SVG, and the 600-DPI hires PNG, all into the
current directory under the fixed stem; each write overwrites whatever any
prior file system held under that name. -/
theorem main_writes_four_files :
    mainSaveCalls =
      [{ filename := "sme_matmul_performance.png", dpi := some 300 },
       { filename := "sme_matmul_performance.pdf", dpi := none },
       { filename := "sme_matmul_performance.svg", dpi := none },
       { filename := "sme_matmul_performance_hires.png", dpi := some 600 }] ∧
    ∀ fs : FS,
      runMainSaves fs "sme_matmul_performance.png" = some (some 300) ∧
      runMainSaves fs "sme_matmul_performance.pdf" = some none ∧
      runMainSaves fs "sme_matmul_performance.svg" = some none ∧
      runMainSaves fs "sme_matmul_performance_hires.png" = some (some 600) :=
  ⟨rfl, fun _ => ⟨rfl, rfl, rfl, rfl⟩⟩

/-- C8: the three measurement tables have exactly the same four method keys
in the same order, and every value sequence has length 3, the number of
matrix-size labels. -/
theorem tables_share_keys_and_lengths :
    time_data.map Prod.fst = ["cpu", "sme_cpu_prep", "sme_sme_prep", "sme_4tiles"] ∧
    speedup_data.map Prod.fst = ["cpu", "sme_cpu_prep", "sme_sme_prep", "sme_4tiles"] ∧
    gflops_data.map Prod.fst = ["cpu", "sme_cpu_prep", "sme_sme_prep", "sme_4tiles"] ∧
    matrix_sizes.length = 3 ∧
    (∀ m : Method,
      (dictGet time_data m.key).length = matrix_sizes.length ∧
      (dictGet speedup_data m.key).length = matrix_sizes.length ∧
      (dictGet gflops_data m.key).length = matrix_sizes.length) := by
  refine ⟨rfl, rfl, rfl, rfl, fun m => ?_⟩
  cases m <;> exact ⟨rfl, rfl, rfl⟩

/-- C9: every plotted value lies inside its chart's fixed y-range: speedups
within [0.5, 600], throughputs within [0, 1700], execution times within
[3, 20000], so no point or bar top is clipped. -/
theorem plotted_values_within_axis_ranges :
    ∀ (m : Method) (i : Fin 3),
      (speedup_ylim.1 ≤ speedupAt m i ∧ speedupAt m i ≤ speedup_ylim.2) ∧
      (gflops_ylim.1 ≤ gflopsAt m i ∧ gflopsAt m i ≤ gflops_ylim.2) ∧
      (time_ylim.1 ≤ timeAt m i ∧ timeAt m i ≤ time_ylim.2) := by
  intro m i
  cases m <;> fin_cases i <;>
    simp only [speedupAt_eq, gflopsAt_eq, timeAt_eq, speedupVals, gflopsVals, timeVals,
      speedup_ylim, gflops_ylim, time_ylim] <;>
    norm_num

/-- C10: for every method the execution-time and throughput sequences are
strictly increasing in matrix size, and for every non-baseline method so is
the speedup sequence. -/
theorem values_strictly_increase_with_size :
    (∀ m : Method, timeAt m 0 < timeAt m 1 ∧ timeAt m 1 < timeAt m 2) ∧
    (∀ m : Method, gflopsAt m 0 < gflopsAt m 1 ∧ gflopsAt m 1 < gflopsAt m 2) ∧
    (∀ v : Variant,
      speedupAt v.toMethod 0 < speedupAt v.toMethod 1 ∧
      speedupAt v.toMethod 1 < speedupAt v.toMethod 2) := by
  refine ⟨fun m => ?_, fun m => ?_, fun v => ?_⟩
  · cases m <;> constructor <;> simp only [timeAt_eq, timeVals] <;> norm_num
  · cases m <;> constructor <;> simp only [gflopsAt_eq, gflopsVals] <;> norm_num
  · cases v <;> constructor <;>
      simp only [Variant.toMethod, speedupAt_eq, speedupVals] <;> norm_num

end Visual
